import Mathlib

/-!
Verification development for the InfiniteYtViews repository.

The repository is a Node.js CLI that drives a browser through rotating
network identities (a Tor control channel or a pool of public HTTP/SOCKS
proxies) in a sequential view-generation loop.  This file gives a shallow
embedding of the subsystems the specification talks about:

* `sendControlCommand` / `rotateIP` — the Tor control-channel client and
  identity-rotation logic of `TorManager` (src/unnamed/part_002);
* `runIteration` / `runLoop` / `mainRun` — the per-view orchestration loop
  and process exit behaviour of the CLI entry point (src/unnamed/part_000,
  Tor mode);
* `parseProxyList` / `fetchProxies` / `getNextProxy` — the proxy-pool
  identity provider (the `ProxyPool` class in src/lib/audio.js);
* `watchDurationSeconds` — the watch-duration sampling expression.

Network and timer effects are represented by explicit environment values
(the response text a control connection accumulated, the outcome of an
address check, what a browser launch returned, ...) so that every function
is a total, executable Lean definition whose value on a concrete
environment is what the JavaScript does in the corresponding scenario.
JavaScript timestamps (`Date.now()`) are modelled as natural numbers of
milliseconds.
-/

namespace InfiniteYtViews

/-! ## String helpers mirroring the JavaScript primitives used by the code -/

/-- Is `pat` a contiguous sublist of `l`?  Backbone of `jsIncludes`. -/
def listInfix (pat l : List Char) : Bool :=
  (List.range (l.length + 1)).any (fun i => pat.isPrefixOf (l.drop i))

/-- Model of JavaScript `String.prototype.includes`. -/
def jsIncludes (s pat : String) : Bool :=
  listInfix pat.data s.data

/-- Model of JavaScript `String.prototype.toLowerCase` (ASCII range, which is
all the code ever feeds it). -/
def jsToLower (s : String) : String :=
  ⟨s.data.map Char.toLower⟩

/-- Model of JavaScript `String.prototype.trim` (the code only ever meets
ASCII whitespace). -/
def jsTrim (s : String) : String :=
  ⟨((s.data.dropWhile Char.isWhitespace).reverse.dropWhile Char.isWhitespace).reverse⟩

/-- Model of JavaScript `String.prototype.startsWith`. -/
def strStartsWith (pat s : String) : Bool :=
  pat.data.isPrefixOf s.data

/-- Split a character list at every occurrence of `c` (the separators are
dropped; `n` separators yield `n + 1` pieces, as JavaScript `split` does). -/
def splitOn (c : Char) : List Char → List (List Char)
  | [] => [[]]
  | x :: xs =>
    if x = c then [] :: splitOn c xs
    else
      match splitOn c xs with
      | [] => [[x]]
      | h :: t => (x :: h) :: t

/-- Drop a single trailing carriage return, if present. -/
def stripCR (l : List Char) : List Char :=
  if l.getLast? = some '\r' then l.dropLast else l

/-- Model of `textData.split(/\r?\n/)`: split at every line feed and strip
one carriage return from the end of each piece. -/
def splitLines (s : String) : List String :=
  (splitOn '\n' s.data).map (fun l => ⟨stripCR l⟩)

/-- Digit characters, as in the regex character class `[0-9]`. -/
def isDigitChar (c : Char) : Bool :=
  '0' ≤ c && c ≤ '9'

/-- Word characters, as in the regex character class `\w` = `[A-Za-z0-9_]`. -/
def isWordChar (c : Char) : Bool :=
  ('a' ≤ c && c ≤ 'z') || ('A' ≤ c && c ≤ 'Z') || ('0' ≤ c && c ≤ '9') || c = '_'

/-- Value of `parseInt` on a string of decimal digits. -/
def digitsToNat (l : List Char) : Nat :=
  l.foldl (fun acc c => acc * 10 + (c.toNat - '0'.toNat)) 0

/-- JavaScript `a || b` on numbers, as used for configuration defaults:
`0` (and `NaN`, not representable here) is falsy, every other number is
taken as given. -/
def jsOrDefault (v d : Nat) : Nat :=
  if v = 0 then d else v

/-- Alias of `Except.isOk` under a name local to this development. -/
def isOkE {ε α : Type} : Except ε α → Bool
  | .ok _ => true
  | .error _ => false

/-! ## Tor control channel (`TorManager.sendControlCommand`, src/unnamed/part_002)

`sendControlCommand` opens a socket to the control port, writes an
AUTHENTICATE line, the command and QUIT, and accumulates everything the
daemon sends until one of three socket events settles the promise: the
connection closes (the accumulated response decides success), a socket
error fires, or the 5-second socket timeout fires.  The environment value
records which of these happened. -/

/-- The observable behaviour of one control-channel connection. -/
inductive ControlChannelEvent where
  | closed (response : String)
  | socketError (msg : String)
  | timeout
  deriving DecidableEq, Repr

/-- Model of `TorManager.sendControlCommand`: on close, resolve with the accumulated
response iff it contains `250 OK`, otherwise reject with the raw response
embedded in the error message; socket errors and timeouts reject. -/
def sendControlCommand (ev : ControlChannelEvent) : Except String String :=
  match ev with
  | .closed response =>
    if jsIncludes response "250 OK" then .ok response
    else .error ("Control command failed: " ++ response)
  | .socketError msg => .error ("Control connection error: " ++ msg)
  | .timeout => .error "Control command timeout"

/-! ## Identity rotation (`TorManager.rotateIP`, src/unnamed/part_002) -/

/-- The Tor configuration fields `rotateIP` reads.  `0` stands for an
absent (JavaScript-falsy) field, which the code replaces by its default. -/
structure TorConfig where
  minRotationInterval : Nat
  circuitBuildTime : Nat
  deriving DecidableEq, Repr

/-- The mutable rotation state of the `TorManager` singleton. -/
structure TorState where
  rotationCount : Nat
  lastRotation : Nat
  deriving DecidableEq, Repr

/-- Environment of one `rotateIP` call: the clock value at entry, what the
control channel did, and how long the control exchange itself took. -/
structure RotateEnv where
  now : Nat
  ctrl : ControlChannelEvent
  cmdElapsed : Nat
  deriving DecidableEq, Repr

/-- Result of one `rotateIP` call.  `sendTime` is the absolute time at which
the NEWNYM command went out on the control connection (after the
minimum-interval delay, when one was needed). -/
structure RotateResult where
  ok : Bool
  state : TorState
  sendTime : Nat
  deriving DecidableEq, Repr

/-- Model of `TorManager.rotateIP`: if less than `minRotationInterval` (default
10000 ms) elapsed since `lastRotation`, sleep exactly the missing time,
then send NEWNYM.  On success sleep `circuitBuildTime` (default 15000 ms),
increment `rotationCount` and set `lastRotation` to the clock value after
that sleep.  Any error raised inside (in particular a failed control
command) is caught, logged, and turned into the return value `false`,
leaving the rotation state untouched. -/
def rotateIP (cfg : TorConfig) (st : TorState) (env : RotateEnv) : RotateResult :=
  let minInterval := jsOrDefault cfg.minRotationInterval 10000
  let timeSinceLastRotation := env.now - st.lastRotation
  let sendTime :=
    if timeSinceLastRotation < minInterval then
      env.now + (minInterval - timeSinceLastRotation)
    else env.now
  match sendControlCommand env.ctrl with
  | .ok _ =>
    let doneTime := sendTime + env.cmdElapsed + jsOrDefault cfg.circuitBuildTime 15000
    { ok := true
      state := { rotationCount := st.rotationCount + 1, lastRotation := doneTime }
      sendTime := sendTime }
  | .error _ => { ok := false, state := st, sendTime := sendTime }

/-! ## The orchestration loop (`main`, src/unnamed/part_000, Tor mode)

The view loop of `main` is embedded for `proxyMode === 'tor'`, the mode the
loop-level claims cite.  One iteration:

* on every iteration after the first, `await tor.rotateIP(...)` (whose
  boolean result the loop does not inspect), a 1-second delay, then
  `tor.getCurrentIp(...)`; an exception thrown there (only `getCurrentIp`
  throws — `rotateIP` catches its own errors) is caught, increments the
  failure counter, sleeps the inter-cycle pacing delay and `continue`s;
* the browser phase: launch, watch, optional like inside a `try`, whose
  `catch` increments the failure counter, and a `finally` that calls
  `browserInstance.close()` exactly when `browserInstance` was assigned a
  value that has a `close` method.

`browserInstance` is assigned `launched.browser` only after the guard
`if (!launched || !launched.page) throw` passed; the Selenium backend's
launch result is `{ driver, page: driver }`, i.e. its `browser` field is
absent, which the `Launched.browser = none` case represents. -/

/-- What `browser.launchBrowser` resolved to, when it did not resolve to
`null`.  `page` is the truthiness of `launched.page`; `browser` is `none`
when the result has no `browser` field (the Selenium shape) and
`some hasClose` when it has one, with `hasClose` the truth of
`typeof browserInstance.close === 'function'`. -/
structure Launched where
  browser : Option Bool
  page : Bool
  deriving DecidableEq, Repr

/-- Environment of one loop iteration: the rotation call's environment, the
outcome of `getCurrentIp` (the string `""` models a falsy address), the
launch result (`none` models `null`), and the outcomes of the watch, like
and close steps (`Except.error` models a thrown exception). -/
structure IterEnv where
  rotate : RotateEnv
  getIp : Except String String
  launched : Option Launched
  watch : Except String Bool
  likeResult : Except String Bool
  closeResult : Except String Unit
  deriving Repr

/-- Per-run mutable state of the view loop. -/
structure LoopState where
  successCount : Nat
  failCount : Nat
  lastIp : Option String
  torState : TorState
  deriving DecidableEq, Repr

/-- Observable events of one iteration.  `rotationOk` is `some b` when the
iteration called `rotateIP` and that call returned `b`; `skippedToNext`
records the `continue` taken by the acquisition `catch`;
`pacingDelayApplied` records the pacing sleep done inside that `catch`;
`launchSucceeded` is the code's own launch-success condition
(`launched && launched.page`); `closeCalls` counts invocations of
`browserInstance.close()`. -/
structure IterTrace where
  rotationOk : Option Bool
  skippedToNext : Bool
  pacingDelayApplied : Bool
  launchSucceeded : Bool
  closeCalls : Nat
  deriving DecidableEq, Repr

/-- The browser phase of one iteration (`try { launch; watch; like }
catch { count failure } finally { close when possible }`).  Returns
whether the iteration was counted as a success and the trace fields of the
phase. -/
def browserPhase (performLike : Bool) (env : IterEnv) : Bool × IterTrace :=
  let launchOk :=
    match env.launched with
    | some l => l.page
    | none => false
  let browserInstance : Option Bool :=
    match env.launched with
    | some l => if l.page then l.browser else none
    | none => none
  let closeCalls : Nat :=
    match browserInstance with
    | some true => 1
    | _ => 0
  let succeeded :=
    if launchOk then
      match env.watch with
      | .error _ => false
      | .ok watched =>
        if watched then
          if performLike then isOkE env.likeResult else true
        else false
    else false
  (succeeded,
   { rotationOk := none
     skippedToNext := false
     pacingDelayApplied := false
     launchSucceeded := launchOk
     closeCalls := closeCalls })

/-- One iteration of the Tor-mode view loop.  `first` is `i = 0`: the first
iteration only reads the current address (errors there are merely logged);
later iterations rotate first and treat an address-check exception as an
acquisition failure (count it, sleep the pacing delay, skip the rest of the
iteration). -/
def runIteration (cfg : TorConfig) (performLike : Bool) (first : Bool)
    (st : LoopState) (env : IterEnv) : LoopState × IterTrace :=
  if first then
    let lastIp' :=
      match env.getIp with
      | .ok ip => some ip
      | .error _ => st.lastIp
    let (succeeded, tr) := browserPhase performLike env
    ({ st with
        lastIp := lastIp'
        successCount := st.successCount + (if succeeded then 1 else 0)
        failCount := st.failCount + (if succeeded then 0 else 1) }, tr)
  else
    let rot := rotateIP cfg st.torState env.rotate
    match env.getIp with
    | .error _ =>
      ({ st with
          failCount := st.failCount + 1
          torState := rot.state },
       { rotationOk := some rot.ok
         skippedToNext := true
         pacingDelayApplied := true
         launchSucceeded := false
         closeCalls := 0 })
    | .ok newIp =>
      let lastIp' :=
        if newIp = "" ∨ some newIp = st.lastIp then st.lastIp else some newIp
      let (succeeded, tr) := browserPhase performLike env
      ({ st with
          lastIp := lastIp'
          torState := rot.state
          successCount := st.successCount + (if succeeded then 1 else 0)
          failCount := st.failCount + (if succeeded then 0 else 1) },
       { tr with rotationOk := some rot.ok })

/-- The whole view loop: one `runIteration` per configured view, strictly in
sequence, the first with `first = true`.  No iteration outcome aborts the
loop; it always consumes every environment and emits one trace per view. -/
def runLoop (cfg : TorConfig) (performLike : Bool) :
    LoopState → Bool → List IterEnv → LoopState × List IterTrace
  | st, _, [] => (st, [])
  | st, first, env :: rest =>
    let (st', tr) := runIteration cfg performLike first st env
    let (stFinal, trs) := runLoop cfg performLike st' false rest
    (stFinal, tr :: trs)

/-! ## Process exit behaviour (`main`, src/unnamed/part_000, Tor mode)

Initialization (`tor.initTor` then `tor.getCurrentIp`) exits with status 1
on a thrown error or a falsy initial address.  The whole view loop sits in
a `try` whose `catch` only logs, and whose `finally` prints the execution
summary and calls `process.exit(0)` — so both a completed run and a run
interrupted by an exception that reached the outer `catch` exit with
status 0.  (Exceptions outside `main`, i.e. `uncaughtException` /
`unhandledRejection`, are handled by process-level handlers that exit
with status 1; see `globalHandlerExitCode`.) -/

/-- Environment of one whole `main` run in Tor mode: the two
initialization outcomes, an optional exception thrown inside the outer
`try` before the view loop (for example by the backend prompt), and the
per-iteration environments. -/
structure MainEnv where
  initTor : Except String Unit
  initIp : Except String String
  preLoopException : Option String
  iters : List IterEnv
  deriving Repr

/-- Observable result of a `main` run. -/
structure MainResult where
  exitCode : Nat
  summaryPrinted : Bool
  successCount : Nat
  failCount : Nat
  deriving DecidableEq, Repr

/-- Initial loop state of a run. -/
def initialLoopState : LoopState :=
  { successCount := 0, failCount := 0, lastIp := none
    torState := { rotationCount := 0, lastRotation := 0 } }

/-- Model of `main` in Tor mode, from network initialization to `process.exit`. -/
def mainRun (cfg : TorConfig) (performLike : Bool) (env : MainEnv) : MainResult :=
  match env.initTor with
  | .error _ =>
    { exitCode := 1, summaryPrinted := false, successCount := 0, failCount := 0 }
  | .ok _ =>
    match env.initIp with
    | .error _ =>
      { exitCode := 1, summaryPrinted := false, successCount := 0, failCount := 0 }
    | .ok ip =>
      if ip = "" then
        { exitCode := 1, summaryPrinted := false, successCount := 0, failCount := 0 }
      else
        match env.preLoopException with
        | some _ =>
          { exitCode := 0, summaryPrinted := true, successCount := 0, failCount := 0 }
        | none =>
          let (st, _) := runLoop cfg performLike initialLoopState true env.iters
          { exitCode := 0, summaryPrinted := true
            successCount := st.successCount, failCount := st.failCount }

/-- Exit status used by the `uncaughtException` and `unhandledRejection`
process-level handlers (src/unnamed/part_000, bottom of the file). -/
def globalHandlerExitCode : Nat := 1

/-! ## The proxy-list line grammar (`ProxyPool.parseProxyList`, src/lib/audio.js)

The code matches each trimmed line against two anchored regexes:

* `/^(\w+):\/\/((?:[0-9]{1,3}\.){3}[0-9]{1,3}):([0-9]{1,5})$/i`
* `/^((?:[0-9]{1,3}\.){3}[0-9]{1,3}):([0-9]{1,5})$/`

Because every quantified class (`\w`, `[0-9]`) is disjoint from the
delimiter that follows it (`:`, `.`, end of input), greedy matching with
backtracking is equivalent to the deterministic longest-run matchers
below: take the maximal run, check its length bound, then require the
delimiter. -/

/-- Greedy run of characters satisfying `q`, with the remaining input —
the deterministic core shared by the regex-quantifier models below. -/
def spanP (q : Char → Bool) : List Char → List Char × List Char
  | [] => ([], [])
  | x :: xs =>
    if q x then
      let (ys, zs) := spanP q xs
      (x :: ys, zs)
    else ([], x :: xs)

/-- Match `[0-9]{1,3}` followed by a delimiter the caller checks: the
maximal digit run, required to have length 1 to 3. -/
def matchOctet (l : List Char) : Option (List Char × List Char) :=
  if 1 ≤ (spanP isDigitChar l).1.length ∧ (spanP isDigitChar l).1.length ≤ 3 then
    some ((spanP isDigitChar l).1, (spanP isDigitChar l).2)
  else none

/-- Require one literal character. -/
def expectChar (c : Char) (l : List Char) : Option (List Char) :=
  match l with
  | x :: xs => if x = c then some xs else none
  | [] => none

/-- Match `(?:[0-9]{1,3}\.){3}[0-9]{1,3}`, returning the matched dotted
quad and the remaining input. -/
def matchIPv4 (l : List Char) : Option (List Char × List Char) :=
  match matchOctet l with
  | none => none
  | some (a, r1) =>
    match expectChar '.' r1 with
    | none => none
    | some r1d =>
      match matchOctet r1d with
      | none => none
      | some (b, r2) =>
        match expectChar '.' r2 with
        | none => none
        | some r2d =>
          match matchOctet r2d with
          | none => none
          | some (c, r3) =>
            match expectChar '.' r3 with
            | none => none
            | some r3d =>
              match matchOctet r3d with
              | none => none
              | some (d, r4) => some (a ++ '.' :: b ++ '.' :: c ++ '.' :: d, r4)

/-- Match `([0-9]{1,5})$`: the whole remaining input is 1 to 5 digits. -/
def matchPortEnd (l : List Char) : Option (List Char) :=
  if l ≠ [] ∧ l.length ≤ 5 ∧ l.all isDigitChar = true then some l else none

/-- Match `((?:[0-9]{1,3}\.){3}[0-9]{1,3}):([0-9]{1,5})$`, returning the
host and port character runs. -/
def matchHostPort (l : List Char) : Option (List Char × List Char) :=
  match matchIPv4 l with
  | none => none
  | some (ip, r) =>
    match expectChar ':' r with
    | none => none
    | some r1 =>
      match matchPortEnd r1 with
      | none => none
      | some port => some (ip, port)

/-- Match the full scheme form `^(\w+):\/\/(ipv4):(port)$`, returning
scheme, host and port character runs. -/
def matchSchemeForm (l : List Char) : Option (List Char × List Char × List Char) :=
  if (spanP isWordChar l).1 = [] then none
  else
    match expectChar ':' (spanP isWordChar l).2 with
    | none => none
    | some r1 =>
      match expectChar '/' r1 with
      | none => none
      | some r2 =>
        match expectChar '/' r2 with
        | none => none
        | some rest2 =>
          (matchHostPort rest2).map (fun hp => ((spanP isWordChar l).1, hp.1, hp.2))

/-- One parsed proxy entry, as pushed by `parseProxyList`. -/
structure ParsedProxy where
  host : String
  port : Nat
  type : String
  url : String
  sourceUrl : String
  deriving DecidableEq, Repr

/-- The per-line body of `parseProxyList` on an already-trimmed,
non-comment, nonempty line: try the scheme form (lower-casing the matched
scheme), then the bare form (defaulting the scheme to `http`, or to
`socks5` when the source URL contains `socks` case-insensitively). -/
def parseTrimmedLine (sourceUrl trimmed : String) : Option ParsedProxy :=
  match matchSchemeForm trimmed.data with
  | some (sch, ip, port) =>
    let ty := jsToLower ⟨sch⟩
    let p := digitsToNat port
    some { host := ⟨ip⟩, port := p, type := ty
           url := ty ++ "://" ++ (⟨ip⟩ : String) ++ ":" ++ toString p
           sourceUrl := sourceUrl }
  | none =>
    match matchHostPort trimmed.data with
    | some (ip, port) =>
      let ty := if jsIncludes (jsToLower sourceUrl) "socks" then "socks5" else "http"
      let p := digitsToNat port
      some { host := ⟨ip⟩, port := p, type := ty
             url := ty ++ "://" ++ (⟨ip⟩ : String) ++ ":" ++ toString p
             sourceUrl := sourceUrl }
    | none => none

/-- The skip-or-parse step applied to one raw line: trim, drop empty and
comment lines (`#`, `//`), then `parseTrimmedLine`. -/
def parseLine (sourceUrl line : String) : Option ParsedProxy :=
  let trimmed := jsTrim line
  if trimmed = "" ∨ strStartsWith "#" trimmed ∨ strStartsWith "//" trimmed then none
  else parseTrimmedLine sourceUrl trimmed

/-- The line loop of `parseProxyList`: walk the lines in order, `continue`
on skipped or unmatched lines, push each parsed entry. -/
def parseProxyListLines (sourceUrl : String) : List String → List ParsedProxy
  | [] => []
  | line :: rest =>
    let trimmed := jsTrim line
    if trimmed = "" ∨ strStartsWith "#" trimmed ∨ strStartsWith "//" trimmed then
      parseProxyListLines sourceUrl rest
    else
      match parseTrimmedLine sourceUrl trimmed with
      | some p => p :: parseProxyListLines sourceUrl rest
      | none => parseProxyListLines sourceUrl rest

/-- Model of `ProxyPool.parseProxyList(textData, sourceUrl)`. -/
def parseProxyList (textData sourceUrl : String) : List ParsedProxy :=
  parseProxyListLines sourceUrl (splitLines textData)

/-! ### Declarative line shapes, for comparing the parser against the spec

The predicates below restate the spec's parsing rule declaratively (via
decompositions of the line into scheme, host and port strings), written
independently of the matcher pipeline above: `ClaimLineForm` is the shape
the claim asserts (`scheme://host:port` or `host:port` with an arbitrary
host), `AmendedLineForm` the shape the code actually accepts (host
restricted to an IPv4 dotted quad of 1-to-3-digit octets). -/

/-- Join pieces with a separator character — the inverse of `splitOn`. -/
def joinSep (c : Char) : List (List Char) → List Char
  | [] => []
  | [x] => x
  | x :: xs => x ++ c :: joinSep c xs

/-- A valid scheme: one or more word characters. -/
def schemeChars (l : List Char) : Bool :=
  !l.isEmpty && l.all isWordChar

/-- A valid octet: one to three digits. -/
def octetChars (l : List Char) : Bool :=
  !l.isEmpty && decide (l.length ≤ 3) && l.all isDigitChar

/-- A valid port: one to five digits. -/
def portChars (l : List Char) : Bool :=
  !l.isEmpty && decide (l.length ≤ 5) && l.all isDigitChar

/-- An IPv4 dotted quad: exactly four valid octets separated by dots. -/
def ipv4Chars (l : List Char) : Bool :=
  match splitOn '.' l with
  | [a, b, c, d] => octetChars a && octetChars b && octetChars c && octetChars d
  | _ => false

/-- A host as the claim reads it: any nonempty run free of `:` and `/`. -/
def hostNoDelim (l : List Char) : Bool :=
  !l.isEmpty && l.all (fun c => c != ':' && c != '/')

/-- The line shape asserted by the claim: `scheme://host:port` or bare
`host:port`, host arbitrary. -/
def ClaimLineForm (t : String) : Prop :=
  (∃ sch h p : String,
      t = sch ++ "://" ++ h ++ ":" ++ p
      ∧ schemeChars sch.data = true ∧ hostNoDelim h.data = true ∧ portChars p.data = true)
  ∨ (∃ h p : String,
      t = h ++ ":" ++ p ∧ hostNoDelim h.data = true ∧ portChars p.data = true)

/-- The line shape the code accepts: as `ClaimLineForm`, but the host must
be an IPv4 dotted quad. -/
def AmendedLineForm (t : String) : Prop :=
  (∃ sch h p : String,
      t = sch ++ "://" ++ h ++ ":" ++ p
      ∧ schemeChars sch.data = true ∧ ipv4Chars h.data = true ∧ portChars p.data = true)
  ∨ (∃ h p : String,
      t = h ++ ":" ++ p ∧ ipv4Chars h.data = true ∧ portChars p.data = true)

/-! ## Pool refresh (`ProxyPool.fetchProxies`, src/lib/audio.js)

`fetchProxies` loops over the configured sources; each source's fetch and
parse sit in a `try` whose `catch` only logs, so one failing source never
fails the refresh.  Parsed entries flow into a JavaScript `Set` of URL
strings (insertion-ordered, first occurrence kept), which is then mapped
back to proxy objects via `new URL`, dropping (with a warning) any string
`new URL` rejects. -/

/-- One pool entry, as produced by the dedupe-and-format step of
`fetchProxies`. -/
structure PoolProxy where
  host : String
  port : Nat
  type : String
  url : String
  sourceUrl : String
  validated : Bool
  lastChecked : Nat
  deriving DecidableEq, Repr

/-- Insertion-ordered deduplication with a seen-set accumulator. -/
def dedupFirstAux (seen : List String) : List String → List String
  | [] => []
  | x :: xs =>
    if seen.contains x then dedupFirstAux seen xs
    else x :: dedupFirstAux (x :: seen) xs

/-- Insertion-ordered deduplication, keeping first occurrences — the
behaviour of iterating a JavaScript `Set` built by repeated `add`. -/
def dedupFirst (l : List String) : List String :=
  dedupFirstAux [] l

/-- Split at the last colon of the list, if any. -/
def splitAtLastColon (l : List Char) : Option (List Char × List Char) :=
  let (revTail, revRest) := spanP (fun c => c != ':') l.reverse
  match revRest with
  | ':' :: revInit => some (revInit.reverse, revTail.reverse)
  | _ => none

/-- The `new URL(proxyUrl)`-based entry builder of `fetchProxies`,
restricted to the `scheme://host:port` strings that `parseProxyList`
produces (which always carry an explicit port; the full WHATWG URL parser
— default-port elision, IDNA, userinfo, ... — is out of scope, and no
claim depends on the extracted `port` number). -/
def urlToPoolProxy (u : String) : Option PoolProxy :=
  let (sch, rest) := spanP (fun c => c != ':') u.data
  match rest with
  | ':' :: '/' :: '/' :: rest2 =>
    if sch = [] then none
    else
      match splitAtLastColon rest2 with
      | some (hostChars, portChars) =>
        if hostChars = [] then none
        else
          some { host := ⟨hostChars⟩, port := digitsToNat portChars
                 type := ⟨sch⟩, url := u, sourceUrl := "various"
                 validated := false, lastChecked := 0 }
      | none => none
  | _ => none

/-- The URL strings gathered from all sources, in order: each source that
fetched successfully contributes its parsed entries' URLs; a source whose
fetch or parse threw contributes nothing (its error is caught and
logged). -/
def fetchedUrls : List (String × Except String String) → List String
  | [] => []
  | (src, .ok text) :: rest =>
    (parseProxyList text src).map (fun p => p.url) ++ fetchedUrls rest
  | (_, .error _) :: rest => fetchedUrls rest

/-- Model of `ProxyPool.fetchProxies` on the outcomes of the per-source fetches
(`results` pairs each configured source URL with what `fetchFromSource`
did): gather, deduplicate, rebuild entries. -/
def fetchProxies (results : List (String × Except String String)) : List PoolProxy :=
  (dedupFirst (fetchedUrls results)).filterMap urlToPoolProxy

/-! ## Round-robin selection (`ProxyPool.getNextProxy`, src/lib/audio.js) -/

/-- One record of `validatedProxiesInfo`: the most recent validation
result stored for a URL (`Map.set` overwrites earlier results). -/
structure VInfo where
  valid : Bool
  lastChecked : Nat
  deriving DecidableEq, Repr

/-- The `ProxyPool` state `getNextProxy` reads and writes.  `info` is the
`validatedProxiesInfo` map, as a partial function from URL strings to the
most recent validation record.  (`isFetching` / `isValidating` are the
re-entrancy guards of the singleton; in the strictly sequential view loop
they are always `false` at the entry of `getNextProxy` and are not
modelled.) -/
structure PoolState where
  proxies : List PoolProxy
  currentIndex : Nat
  info : String → Option VInfo

/-- The `workingProxies` filter: keep the proxies whose URL has a stored
validation record with `valid = true`. -/
def workingProxies (proxies : List PoolProxy) (info : String → Option VInfo) :
    List PoolProxy :=
  proxies.filter (fun p =>
    match info p.url with
    | some v => v.valid
    | none => false)

/-- Environment of one `getNextProxy` call: what the pool looks like after
the empty-pool `fetchProxies(true)` rescue (`fetched`, with the
`validatedProxiesInfo` contents at that moment, which the un-awaited
validation kick-off may or may not have updated yet), and the
`validatedProxiesInfo` contents after the awaited re-validation pass of
the no-working-proxies fallback. -/
structure NextProxyEnv where
  fetched : List PoolProxy
  infoAfterFetch : String → Option VInfo
  infoAfterRevalidate : String → Option VInfo

/-- Placeholder entry for `List.getD`; every indexed access below is at an
index strictly below the list length, so it is never used. -/
def dummyPoolProxy : PoolProxy :=
  { host := "", port := 0, type := "", url := "", sourceUrl := ""
    validated := false, lastChecked := 0 }

/-- The body of `getNextProxy` after the optional empty-pool refetch:
`proxies1` and `info1` are the candidate list and the
`validatedProxiesInfo` contents at that point, `info2` the map contents
after the fallback re-validation pass.  Fail with `null` when the list is
empty; otherwise filter the working subset; when it is empty, re-validate,
filter again, and either fail with `null` or reset the cursor to `0` and
return that entry; otherwise advance the cursor to
`(currentIndex + 1) % workingProxies.length` and return the entry at the
advanced cursor. -/
def poolSelect (proxies1 : List PoolProxy) (info1 info2 : String → Option VInfo)
    (currentIndex : Nat) : Option String × PoolState :=
  if proxies1.isEmpty then
    (none, { proxies := proxies1, currentIndex := currentIndex, info := info1 })
  else
    let wp := workingProxies proxies1 info1
    if wp.isEmpty then
      let wp2 := workingProxies proxies1 info2
      if wp2.isEmpty then
        (none, { proxies := proxies1, currentIndex := currentIndex, info := info2 })
      else
        (some ((wp2.getD 0 dummyPoolProxy).url),
         { proxies := proxies1, currentIndex := 0, info := info2 })
    else
      let idx := (currentIndex + 1) % wp.length
      (some ((wp.getD idx dummyPoolProxy).url),
       { proxies := proxies1, currentIndex := idx, info := info1 })

/-- Model of `ProxyPool.getNextProxy`: when the pool is empty, refetch first (the
selection then runs on the fetched list and the map state
`infoAfterFetch`); otherwise select directly from the current state. -/
def getNextProxy (st : PoolState) (env : NextProxyEnv) : Option String × PoolState :=
  if st.proxies.isEmpty then
    poolSelect env.fetched env.infoAfterFetch env.infoAfterRevalidate st.currentIndex
  else
    poolSelect st.proxies st.info env.infoAfterRevalidate st.currentIndex

/-! ## Watch-duration sampling (`main`, src/unnamed/part_000, line 484) -/

/-- The per-view duration pick
`Math.floor(Math.random() * (max - min + 1)) + min`, with `r` the value
`Math.random()` returned (a number in `[0, 1)`). -/
def watchDurationSeconds (minWatchSeconds maxWatchSeconds : Int) (r : ℚ) : Int :=
  ⌊r * ((maxWatchSeconds - minWatchSeconds + 1 : Int) : ℚ)⌋ + minWatchSeconds

/-! ## Shared concrete fixtures used by the theorems below -/

/-- The default Tor configuration values (`minRotationInterval || 10000`,
`circuitBuildTime || 15000`) spelled out. -/
def cfgDefault : TorConfig :=
  { minRotationInterval := 10000, circuitBuildTime := 15000 }

/-- A successful Selenium-backend launch as seen by the view loop: a
launch result with a truthy `page` and no `browser` field, followed by a
successful watch. -/
def seleniumIterEnv : IterEnv :=
  { rotate := { now := 0, ctrl := .closed "250 OK", cmdElapsed := 0 }
    getIp := .ok "1.2.3.4"
    launched := some { browser := none, page := true }
    watch := .ok true
    likeResult := .ok true
    closeResult := .ok () }

/-- A successful Puppeteer-backend launch (launch result carries a
`browser` object with a `close` method) whose watch step throws. -/
def puppeteerThrowIterEnv : IterEnv :=
  { rotate := { now := 0, ctrl := .closed "250 OK", cmdElapsed := 0 }
    getIp := .ok "1.2.3.4"
    launched := some { browser := some true, page := true }
    watch := .error "ActivityError: page.goto failed"
    likeResult := .ok true
    closeResult := .ok () }

/-- An iteration whose browser launch returned `null`: the view is counted
as failed. -/
def launchFailedIterEnv : IterEnv :=
  { rotate := { now := 0, ctrl := .closed "250 OK", cmdElapsed := 0 }
    getIp := .ok "1.2.3.4"
    launched := none
    watch := .ok true
    likeResult := .ok true
    closeResult := .ok () }

/-- An iteration (after the first) whose rotation command was rejected but
whose address check and view succeeded. -/
def rotationFailedIterEnv : IterEnv :=
  { rotate := { now := 100000, ctrl := .closed "515 Bad authentication", cmdElapsed := 5 }
    getIp := .ok "2.2.2.2"
    launched := some { browser := some true, page := true }
    watch := .ok true
    likeResult := .ok true
    closeResult := .ok () }

/-- An iteration (after the first) whose address check threw. -/
def ipCheckFailedIterEnv : IterEnv :=
  { rotate := { now := 100000, ctrl := .closed "250 OK", cmdElapsed := 0 }
    getIp := .error "Failed to get current IP: socket timeout"
    launched := none
    watch := .ok false
    likeResult := .ok false
    closeResult := .ok () }

/-- A three-entry pool in which the first two entries' latest validation
passed and the third's failed. -/
def samplePoolProxy (u : String) : PoolProxy :=
  { host := "10.0.0.1", port := 8080, type := "http", url := u
    sourceUrl := "https://list.example", validated := true
    lastChecked := 1700000000000 }

/-- Latest validation records of the sample pool. -/
def sampleInfo : String → Option VInfo := fun u =>
  if u = "http://10.0.0.1:8080" ∨ u = "http://10.0.0.2:8080" then
    some { valid := true, lastChecked := 1700000000000 }
  else if u = "http://10.0.0.3:8080" then
    some { valid := false, lastChecked := 1700000000000 }
  else none

/-- Sample pool state: three candidates, two currently valid, cursor at
`0` as after a fresh fetch-and-validate. -/
def samplePoolState : PoolState :=
  { proxies :=
      [samplePoolProxy "http://10.0.0.1:8080",
       samplePoolProxy "http://10.0.0.2:8080",
       samplePoolProxy "http://10.0.0.3:8080"]
    currentIndex := 0
    info := sampleInfo }

/-- Environment for selection calls that never hit the refetch or
re-validation fallbacks. -/
def sampleNextEnv : NextProxyEnv :=
  { fetched := [], infoAfterFetch := fun _ => none
    infoAfterRevalidate := fun _ => none }


/-! ## Claim C4 — control-channel acknowledgment -/

/-- C4: a control-channel command (`sendControlCommand`) whose connection
closed succeeds exactly when the accumulated response text contains the
positive acknowledgment token `250 OK`; otherwise it fails with an error
carrying the raw response text; moreover a success can only arise from a
closed connection whose response contains the token. -/
theorem c4_control_command_ack :
    ∀ response : String,
      (isOkE (sendControlCommand (.closed response)) = true ↔
        jsIncludes response "250 OK" = true)
      ∧ (jsIncludes response "250 OK" = false →
          sendControlCommand (.closed response)
            = .error ("Control command failed: " ++ response))
      ∧ (∀ ev : ControlChannelEvent, isOkE (sendControlCommand ev) = true →
          ∃ r, ev = .closed r ∧ jsIncludes r "250 OK" = true) := by
  intro response
  refine ⟨?_, ?_, ?_⟩
  · cases h : jsIncludes response "250 OK" <;> simp [sendControlCommand, h, isOkE]
  · intro h
    simp [sendControlCommand, h]
  · intro ev h
    cases ev with
    | closed r =>
      cases hr : jsIncludes r "250 OK"
      · exfalso
        rw [sendControlCommand] at h
        simp [hr, isOkE] at h
      · exact ⟨r, rfl, hr⟩
    | socketError m => simp [sendControlCommand, isOkE] at h
    | timeout => simp [sendControlCommand, isOkE] at h

/-- Witness for C4 at a concrete rejected response. -/
theorem c4_control_command_ack_witness :
    jsIncludes "515 Authentication failed" "250 OK" = false
    ∧ sendControlCommand (.closed "515 Authentication failed")
        = .error ("Control command failed: " ++ "515 Authentication failed") :=
  ⟨by decide, (c4_control_command_ack "515 Authentication failed").2.1 (by decide)⟩

/-! ## Claim C9 — watch-duration bounds -/

/-- C9: for `Math.random()` values `r ∈ [0, 1)` and bounds `min ≤ max`,
the sampled duration `Math.floor(r * (max - min + 1)) + min` lies in
`[min, max]`, and for the degenerate bounds `min = max = 30` it is exactly
`30`. -/
theorem c9_watch_duration_in_bounds :
    ∀ (minW maxW : Int) (r : ℚ), 0 ≤ r → r < 1 → minW ≤ maxW →
      (minW ≤ watchDurationSeconds minW maxW r
        ∧ watchDurationSeconds minW maxW r ≤ maxW)
      ∧ (minW = 30 → maxW = 30 → watchDurationSeconds minW maxW r = 30) := by
  intro minW maxW r hr0 hr1 hminmax
  have hk : (0:Int) < maxW - minW + 1 := by omega
  have hkQ : (0:ℚ) < ((maxW - minW + 1 : Int) : ℚ) := by exact_mod_cast hk
  have h0 : (0:Int) ≤ ⌊r * ((maxW - minW + 1 : Int) : ℚ)⌋ :=
    Int.floor_nonneg.mpr (mul_nonneg hr0 hkQ.le)
  have hlt : ⌊r * ((maxW - minW + 1 : Int) : ℚ)⌋ < maxW - minW + 1 := by
    apply Int.floor_lt.mpr
    have hmul := mul_lt_mul_of_pos_right hr1 hkQ
    simpa using hmul
  constructor
  · unfold watchDurationSeconds
    omega
  · intro h30a h30b
    subst h30a
    subst h30b
    unfold watchDurationSeconds
    omega

/-- Witness for C9 at `min = max = 30`, `r = 1/2`. -/
theorem c9_watch_duration_in_bounds_witness :
    watchDurationSeconds 30 30 (1/2) = 30 :=
  (c9_watch_duration_in_bounds 30 30 (1/2) (by norm_num) (by norm_num) le_rfl).2 rfl rfl

/-! ## Claim C2 — teardown of launched sessions

The Selenium backend's launch result is `{ driver, page: driver }`
(src/lib/selenium.js / src/unnamed/part_002, `launchSeleniumBrowser`),
even though `launchBrowser`'s own documentation promises
`{browser: any, page: any}`.  The view loop's guard
`if (!launched || !launched.page)` passes, so the launch counts as
successful, but `browserInstance = launched.browser` is `undefined` and
the `finally` block skips `browserInstance.close()` entirely. -/

/-- C2 (failing input): an iteration whose browser launch succeeded via the
Selenium backend never invokes the session teardown — `closeCalls = 0`,
not `1` — while the same loop run with a Puppeteer-shaped launch result
closes exactly once even when the watch step throws. -/
theorem c2_selenium_launch_skips_teardown :
    ((runIteration cfgDefault false true initialLoopState seleniumIterEnv).2.launchSucceeded
        = true)
    ∧ (runIteration cfgDefault false true initialLoopState seleniumIterEnv).2.closeCalls = 0
    ∧ ((runIteration cfgDefault false true initialLoopState puppeteerThrowIterEnv).2.launchSucceeded
        = true)
    ∧ (runIteration cfgDefault false true initialLoopState puppeteerThrowIterEnv).2.closeCalls
        = 1 := by
  decide

/-! ## Claim C6 — a failing source does not poison the refresh -/

/-- C6: `fetchProxies` ignores sources whose fetch threw (filtering the
per-source outcomes to the successful ones changes nothing), and in the
concrete two-source scenario — one source throwing a network error, the
other serving three valid lines — the refresh completes with three
candidates, not zero. -/
theorem c6_source_failure_does_not_poison_refresh :
    (∀ results : List (String × Except String String),
        fetchProxies results = fetchProxies (results.filter (fun sr => isOkE sr.2)))
    ∧ (fetchProxies
         [("https://s1.example/list", Except.error "network error"),
          ("https://s2.example/list", Except.ok "1.1.1.1:80\n2.2.2.2:81\n3.3.3.3:82")]).length
        = 3 := by
  constructor
  · intro results
    unfold fetchProxies
    have h : fetchedUrls results = fetchedUrls (results.filter (fun sr => isOkE sr.2)) := by
      induction results with
      | nil => rfl
      | cons sr rest ih =>
        rcases sr with ⟨src, r⟩
        cases r with
        | ok text => simp [fetchedUrls, List.filter_cons, isOkE, ih]
        | error e => simp [fetchedUrls, List.filter_cons, isOkE, ih]
    rw [h]
  · rfl

/-! ## Claim C7 — process exit status

The view loop sits in a `try` whose `catch` only logs, followed by a
`finally` that prints the summary and calls `process.exit(0)`.  An
exception that escapes into that outer `catch` therefore still ends the
process with status 0, contrary to the claim; only initialization
failures (and the process-level `uncaughtException` / `unhandledRejection`
handlers outside `main`) produce a non-zero status. -/

/-- C7 (counterexample): a run whose initialization succeeded but whose
outer `try` body threw an unrecoverable exception exits with status `0`
(after printing the summary), not with a non-zero status as claimed. -/
theorem c7_run_exception_exits_zero :
    (mainRun cfgDefault true
        { initTor := .ok (), initIp := .ok "93.184.216.34"
          preLoopException := some "backend prompt failed", iters := [] }).exitCode = 0
    ∧ (mainRun cfgDefault true
        { initTor := .ok (), initIp := .ok "93.184.216.34"
          preLoopException := some "backend prompt failed", iters := [] }).summaryPrinted
        = true := by
  exact ⟨rfl, rfl⟩

/-- C7 (amended): the process exits with status 1 when Tor initialization
throws, when the initial address check throws, or when it yields a falsy
address; once initialization succeeded the process always exits with
status 0 and prints the summary — after a completed run with any mix of
per-iteration outcomes, and equally when an exception reached the outer
`catch`; exceptions outside `main` are handled by process-level handlers
that exit with status 1. -/
theorem c7_exit_code_semantics :
    ∀ (cfg : TorConfig) (pl : Bool) (env : MainEnv),
      (∀ msg, env.initTor = .error msg → (mainRun cfg pl env).exitCode = 1)
      ∧ (∀ msg, env.initIp = .error msg → (mainRun cfg pl env).exitCode = 1)
      ∧ (env.initIp = .ok "" → (mainRun cfg pl env).exitCode = 1)
      ∧ (env.initTor = .ok () → ∀ ip, env.initIp = .ok ip → ip ≠ "" →
          (mainRun cfg pl env).exitCode = 0 ∧ (mainRun cfg pl env).summaryPrinted = true)
      ∧ globalHandlerExitCode = 1 := by
  intro cfg pl env
  refine ⟨?_, ?_, ?_, ?_, rfl⟩
  · intro msg h
    simp [mainRun, h]
  · intro msg h
    cases ht : env.initTor with
    | error m => simp [mainRun, ht]
    | ok u => simp [mainRun, ht, h]
  · intro h
    cases ht : env.initTor with
    | error m => simp [mainRun, ht]
    | ok u => simp [mainRun, ht, h]
  · intro ht ip hip hne
    cases hp : env.preLoopException with
    | some e => simp [mainRun, ht, hip, hne, hp]
    | none => simp [mainRun, ht, hip, hne, hp]

/-- Witness for C7: a completed run whose only iteration failed still
exits with status 0, summary printed. -/
theorem c7_exit_code_semantics_witness :
    (mainRun cfgDefault true
        { initTor := .ok (), initIp := .ok "203.0.113.9"
          preLoopException := none, iters := [launchFailedIterEnv] }).exitCode = 0
    ∧ (mainRun cfgDefault true
        { initTor := .ok (), initIp := .ok "203.0.113.9"
          preLoopException := none, iters := [launchFailedIterEnv] }).summaryPrinted = true
    ∧ (mainRun cfgDefault true
        { initTor := .ok (), initIp := .ok "203.0.113.9"
          preLoopException := none, iters := [launchFailedIterEnv] }).failCount = 1 := by
  have h := (c7_exit_code_semantics cfgDefault true
    { initTor := .ok (), initIp := .ok "203.0.113.9"
      preLoopException := none, iters := [launchFailedIterEnv] }).2.2.2.1
    rfl "203.0.113.9" rfl (by decide)
  exact ⟨h.1, h.2, by decide⟩

/-! ## Claim C3 — minimum inter-rotation spacing

`rotateIP` delays a too-early call until `minRotationInterval` has elapsed
since the recorded `lastRotation` and then still sends the renew command —
it never rejects or skips.  But `lastRotation` is only advanced when the
rotation *succeeds*: after a failed rotation (e.g. a control connection
that closed without `250 OK` — the command was sent and rejected), the
next call measures its gap against the stale `lastRotation` and may send
again immediately. -/

/-- The send time of a `rotateIP` call does not depend on the control
channel's outcome: it is the entry time, pushed forward to
`lastRotation + minRotationInterval` when the call came too early. -/
theorem rotateIP_sendTime (cfg : TorConfig) (st : TorState) (env : RotateEnv) :
    (rotateIP cfg st env).sendTime =
      if env.now - st.lastRotation < jsOrDefault cfg.minRotationInterval 10000 then
        env.now + (jsOrDefault cfg.minRotationInterval 10000 - (env.now - st.lastRotation))
      else env.now := by
  unfold rotateIP
  cases h : sendControlCommand env.ctrl <;> simp [h]

/-- A successful `rotateIP` records, as the new `lastRotation`, the clock
value after the control exchange and the circuit-build sleep — a time no
earlier than the send. -/
theorem rotateIP_lastRotation_of_ok (cfg : TorConfig) (st : TorState) (env : RotateEnv)
    (h : (rotateIP cfg st env).ok = true) :
    (rotateIP cfg st env).state.lastRotation =
      (rotateIP cfg st env).sendTime + env.cmdElapsed
        + jsOrDefault cfg.circuitBuildTime 15000 := by
  unfold rotateIP at *
  cases hc : sendControlCommand env.ctrl <;> simp [hc] at h ⊢

/-- A failed `rotateIP` leaves the rotation state untouched. -/
theorem rotateIP_state_of_failed (cfg : TorConfig) (st : TorState) (env : RotateEnv)
    (h : (rotateIP cfg st env).ok = false) :
    (rotateIP cfg st env).state = st := by
  unfold rotateIP at *
  cases hc : sendControlCommand env.ctrl <;> simp [hc] at h ⊢

/-- C3 (counterexample): two consecutive `rotateIP` calls, the first of
which sent the renew command but had it rejected (no `250 OK`), send their
commands 1 ms apart — far less than the 10000 ms minimum interval —
because the failed call did not advance `lastRotation`. -/
theorem c3_failed_rotation_breaks_spacing :
    ((rotateIP cfgDefault { rotationCount := 0, lastRotation := 0 }
        { now := 100000, ctrl := .closed "515 Bad authentication", cmdElapsed := 5 }).ok
      = false)
    ∧ ((rotateIP cfgDefault
          (rotateIP cfgDefault { rotationCount := 0, lastRotation := 0 }
            { now := 100000, ctrl := .closed "515 Bad authentication", cmdElapsed := 5 }).state
          { now := 100001, ctrl := .closed "250 OK", cmdElapsed := 5 }).ok = true)
    ∧ ((rotateIP cfgDefault
          (rotateIP cfgDefault { rotationCount := 0, lastRotation := 0 }
            { now := 100000, ctrl := .closed "515 Bad authentication", cmdElapsed := 5 }).state
          { now := 100001, ctrl := .closed "250 OK", cmdElapsed := 5 }).sendTime
        - (rotateIP cfgDefault { rotationCount := 0, lastRotation := 0 }
            { now := 100000, ctrl := .closed "515 Bad authentication", cmdElapsed := 5 }).sendTime
        = 1)
    ∧ (1 < jsOrDefault cfgDefault.minRotationInterval 10000) := by
  decide

/-- C3 (amended): a `rotate()` call issued before `minRotationInterval`
has elapsed since the recorded `lastRotation` is delayed exactly until
`lastRotation + minRotationInterval` and the renew command is then still
sent (never rejected or skipped); consequently, whenever the earlier of
two consecutive calls succeeded, their command sends are at least
`minRotationInterval` apart.  (After a failed rotation `lastRotation` is
not advanced, so the send following a failure may come sooner — see the
counterexample.) -/
theorem c3_rotation_delay_and_spacing :
    ∀ (cfg : TorConfig) (st : TorState) (env1 env2 : RotateEnv),
      st.lastRotation ≤ env1.now →
      (env1.now < st.lastRotation + jsOrDefault cfg.minRotationInterval 10000 →
        (rotateIP cfg st env1).sendTime
          = st.lastRotation + jsOrDefault cfg.minRotationInterval 10000)
      ∧ ((rotateIP cfg st env1).ok = true →
          (rotateIP cfg st env1).state.lastRotation ≤ env2.now →
          (rotateIP cfg (rotateIP cfg st env1).state env2).sendTime
            ≥ (rotateIP cfg st env1).sendTime
              + jsOrDefault cfg.minRotationInterval 10000) := by
  intro cfg st env1 env2 h1
  constructor
  · intro hearly
    rw [rotateIP_sendTime]
    have hlt : env1.now - st.lastRotation < jsOrDefault cfg.minRotationInterval 10000 := by
      omega
    rw [if_pos hlt]
    omega
  · intro hok h2
    have hlast := rotateIP_lastRotation_of_ok cfg st env1 hok
    have hsend2 := rotateIP_sendTime cfg (rotateIP cfg st env1).state env2
    rw [hlast] at hsend2 h2
    rw [hsend2]
    split <;> omega

/-- Witness for C3 at a concrete too-early successful rotation followed by
a second rotation. -/
theorem c3_rotation_delay_and_spacing_witness :
    ((rotateIP cfgDefault { rotationCount := 0, lastRotation := 0 }
        { now := 5000, ctrl := .closed "250 OK", cmdElapsed := 0 }).sendTime
      = 0 + jsOrDefault cfgDefault.minRotationInterval 10000)
    ∧ ((rotateIP cfgDefault
          (rotateIP cfgDefault { rotationCount := 0, lastRotation := 0 }
            { now := 5000, ctrl := .closed "250 OK", cmdElapsed := 0 }).state
          { now := 25000, ctrl := .closed "250 OK", cmdElapsed := 0 }).sendTime
        ≥ (rotateIP cfgDefault { rotationCount := 0, lastRotation := 0 }
            { now := 5000, ctrl := .closed "250 OK", cmdElapsed := 0 }).sendTime
          + jsOrDefault cfgDefault.minRotationInterval 10000) := by
  have h := c3_rotation_delay_and_spacing cfgDefault
    { rotationCount := 0, lastRotation := 0 }
    { now := 5000, ctrl := .closed "250 OK", cmdElapsed := 0 }
    { now := 25000, ctrl := .closed "250 OK", cmdElapsed := 0 }
    (by decide)
  exact ⟨h.1 (by decide), h.2 (by decide) (by decide)⟩

/-! ## Claim C1 — rotation failure is not surfaced to the loop

`TorManager.rotateIP` catches every error raised during rotation, logs it,
and returns `false`; the view loop calls `await tor.rotateIP(...)` without
inspecting that boolean.  A failed rotation therefore does not increment
the failure counter, does not trigger the pacing-delay-and-`continue`
path, and the iteration proceeds to launch a browser over the old
circuit.  The counted-and-skipped path the claim describes is taken
exactly when the *address check* (`tor.getCurrentIp`) throws. -/

/-- C1 (counterexample): in an iteration after the first whose identity
rotation failed (`rotateIP` returned `false`), the loop does not count a
failure, does not take the pacing-and-skip path, and instead completes the
view as a success — contradicting the claimed increment-delay-skip
behaviour for rotation failures. -/
theorem c1_rotation_failure_untracked :
    ((runIteration cfgDefault false false initialLoopState rotationFailedIterEnv).2.rotationOk
        = some false)
    ∧ (runIteration cfgDefault false false initialLoopState rotationFailedIterEnv).1.failCount
        = 0
    ∧ (runIteration cfgDefault false false initialLoopState
        rotationFailedIterEnv).2.skippedToNext = false
    ∧ (runIteration cfgDefault false false initialLoopState
        rotationFailedIterEnv).2.pacingDelayApplied = false
    ∧ (runIteration cfgDefault false false initialLoopState
        rotationFailedIterEnv).1.successCount = 1 := by
  decide

/-- The view loop always processes every configured iteration: one trace
per iteration environment, no aborts. -/
theorem runLoop_length (cfg : TorConfig) (pl : Bool) :
    ∀ (envs : List IterEnv) (st : LoopState) (b : Bool),
      ((runLoop cfg pl st b envs).2).length = envs.length := by
  intro envs
  induction envs with
  | nil => intro st b; rfl
  | cons e rest ih =>
    intro st b
    simp [runLoop, ih]

/-- C1 (amended): in Tor mode, for every iteration after the first, the
pacing-and-skip path is taken exactly when the address check threw
(`rotateIP` itself never surfaces an error to the loop — its boolean
result is ignored); when the address check throws, the loop increments the
failure counter, leaves the success counter unchanged, applies the
inter-cycle pacing delay, skips the rest of the iteration, and the run
continues — the loop always emits one outcome per configured iteration
without aborting. -/
theorem c1_acquisition_failure_handling :
    ∀ (cfg : TorConfig) (pl : Bool) (st : LoopState) (env : IterEnv),
      ((runIteration cfg pl false st env).2.skippedToNext = true ↔ isOkE env.getIp = false)
      ∧ (∀ msg, env.getIp = .error msg →
          (runIteration cfg pl false st env).1.failCount = st.failCount + 1
          ∧ (runIteration cfg pl false st env).1.successCount = st.successCount
          ∧ (runIteration cfg pl false st env).2.pacingDelayApplied = true
          ∧ (runIteration cfg pl false st env).2.closeCalls = 0)
      ∧ (∀ (envs : List IterEnv) (st0 : LoopState) (b : Bool),
          ((runLoop cfg pl st0 b envs).2).length = envs.length) := by
  intro cfg pl st env
  refine ⟨?_, ?_, fun envs st0 b => runLoop_length cfg pl envs st0 b⟩
  · cases hip : env.getIp with
    | error msg => simp [runIteration, hip, isOkE]
    | ok ip => simp [runIteration, hip, isOkE, browserPhase]
  · intro msg h
    simp [runIteration, h]

/-- Witness for C1 at a concrete address-check failure. -/
theorem c1_acquisition_failure_handling_witness :
    (runIteration cfgDefault false false initialLoopState
        ipCheckFailedIterEnv).2.skippedToNext = true
    ∧ (runIteration cfgDefault false false initialLoopState
        ipCheckFailedIterEnv).1.failCount = initialLoopState.failCount + 1
    ∧ ((runLoop cfgDefault false initialLoopState true [ipCheckFailedIterEnv]).2).length
        = 1 := by
  have h := c1_acquisition_failure_handling cfgDefault false initialLoopState
    ipCheckFailedIterEnv
  have h2 := h.2.1 "Failed to get current IP: socket timeout" rfl
  exact ⟨h.1.mpr rfl, h2.1, h.2.2 [ipCheckFailedIterEnv] initialLoopState true⟩

/-! ## Claims C5 and C10 — round-robin selection invariants -/

/-- Every entry of the `workingProxies` filter result carries a stored
validation record with `valid = true`; in particular the entry at any
in-range index does. -/
theorem workingProxies_getD_valid (proxies : List PoolProxy)
    (info : String → Option VInfo) (i : Nat)
    (hi : i < (workingProxies proxies info).length) :
    ∃ v : VInfo,
      info (((workingProxies proxies info).getD i dummyPoolProxy).url) = some v
      ∧ v.valid = true := by
  have hget : (workingProxies proxies info).getD i dummyPoolProxy
      = (workingProxies proxies info)[i] := List.getD_eq_getElem _ _ hi
  have hmem : (workingProxies proxies info).getD i dummyPoolProxy
      ∈ workingProxies proxies info := by
    rw [hget]
    exact List.getElem_mem hi
  have hpred := (List.mem_filter.mp hmem).2
  rcases hv : info (((workingProxies proxies info).getD i dummyPoolProxy).url) with _ | v
  · rw [hv] at hpred
    simp at hpred
  · rw [hv] at hpred
    exact ⟨v, rfl, hpred⟩

/-- A nonempty list has positive length (Bool `isEmpty` form). -/
theorem length_pos_of_isEmpty_false {α : Type} {l : List α}
    (h : l.isEmpty = false) : 0 < l.length := by
  cases l with
  | nil => simp at h
  | cons a as => simp

/-- Any URL `poolSelect` returns comes from an entry whose stored record in
the selection-time map is `valid = true`, and that map is exactly the one
recorded in the returned state. -/
theorem poolSelect_validated (proxies1 : List PoolProxy)
    (info1 info2 : String → Option VInfo) (ci : Nat) (url : String)
    (h : (poolSelect proxies1 info1 info2 ci).1 = some url) :
    ∃ v : VInfo,
      (poolSelect proxies1 info1 info2 ci).2.info url = some v ∧ v.valid = true := by
  unfold poolSelect at h ⊢
  by_cases h1 : proxies1.isEmpty
  · simp [h1] at h
  · simp only [h1, Bool.false_eq_true, if_false] at h ⊢
    by_cases h2 : (workingProxies proxies1 info1).isEmpty
    · by_cases h3 : (workingProxies proxies1 info2).isEmpty
      · simp [h2, h3] at h
      · simp only [h2, h3, if_true, Bool.false_eq_true, if_false] at h ⊢
        have hpos : 0 < (workingProxies proxies1 info2).length :=
          length_pos_of_isEmpty_false (Bool.not_eq_true _ ▸ eq_false_of_ne_true h3)
        obtain ⟨v, hv, hval⟩ := workingProxies_getD_valid proxies1 info2 0 hpos
        rcases h with ⟨hurl⟩
        exact ⟨v, hv, hval⟩
    · simp only [h2, Bool.false_eq_true, if_false] at h ⊢
      have hpos : 0 < (workingProxies proxies1 info1).length :=
        length_pos_of_isEmpty_false (Bool.not_eq_true _ ▸ eq_false_of_ne_true h2)
      have hlt : (ci + 1) % (workingProxies proxies1 info1).length
          < (workingProxies proxies1 info1).length := Nat.mod_lt _ hpos
      obtain ⟨v, hv, hval⟩ := workingProxies_getD_valid proxies1 info1 _ hlt
      rcases h with ⟨hurl⟩
      exact ⟨v, hv, hval⟩

/-- C5: every URL returned by `getNextProxy` belongs to an entry whose
most recent recorded validation result (in the `validatedProxiesInfo` map
in effect at selection, which the returned state carries) is
`valid = true`; never an unvalidated or invalid entry. -/
theorem c5_next_proxy_is_validated :
    ∀ (st : PoolState) (env : NextProxyEnv) (url : String),
      (getNextProxy st env).1 = some url →
      ∃ v : VInfo, (getNextProxy st env).2.info url = some v ∧ v.valid = true := by
  intro st env url h
  unfold getNextProxy at h ⊢
  by_cases he : st.proxies.isEmpty
  · simp only [he, if_true] at h ⊢
    exact poolSelect_validated _ _ _ _ _ h
  · simp only [he, Bool.false_eq_true, if_false] at h ⊢
    exact poolSelect_validated _ _ _ _ _ h

/-- Witness for C5 at the sample pool: the returned URL has a stored
passing validation record. -/
theorem c5_next_proxy_is_validated_witness :
    ∃ v : VInfo,
      (getNextProxy samplePoolState sampleNextEnv).2.info "http://10.0.0.2:8080" = some v
      ∧ v.valid = true :=
  c5_next_proxy_is_validated samplePoolState sampleNextEnv "http://10.0.0.2:8080" (by decide)

/-- When the working subset is nonempty, `poolSelect` advances the cursor
to `(currentIndex + 1) % workingProxies.length` before selecting and
returns the entry at the advanced cursor. -/
theorem poolSelect_advances_cursor (proxies1 : List PoolProxy)
    (info1 info2 : String → Option VInfo) (ci : Nat)
    (hne : proxies1.isEmpty = false)
    (hwp : (workingProxies proxies1 info1).isEmpty = false) :
    (poolSelect proxies1 info1 info2 ci).2.currentIndex
        = (ci + 1) % (workingProxies proxies1 info1).length
    ∧ (poolSelect proxies1 info1 info2 ci).1
        = some (((workingProxies proxies1 info1).getD
            ((ci + 1) % (workingProxies proxies1 info1).length) dummyPoolProxy).url) := by
  unfold poolSelect
  simp [hne, hwp]

/-- C10: when the pool is nonempty and holds at least one currently-valid
candidate (so neither fallback is taken), `getNextProxy` advances the
cursor to `(currentIndex + 1) mod (number of valid candidates)` before
selecting and returns the candidate at the advanced cursor; hence with
cursor `0` (as after a fresh validation) and at least two valid
candidates, it returns the second valid candidate, never the first. -/
theorem c10_cursor_advances_before_select :
    ∀ (st : PoolState) (env : NextProxyEnv),
      st.proxies.isEmpty = false →
      (workingProxies st.proxies st.info).isEmpty = false →
      ((getNextProxy st env).2.currentIndex
          = (st.currentIndex + 1) % (workingProxies st.proxies st.info).length
        ∧ (getNextProxy st env).1
            = some (((workingProxies st.proxies st.info).getD
                ((st.currentIndex + 1) % (workingProxies st.proxies st.info).length)
                dummyPoolProxy).url))
      ∧ (st.currentIndex = 0 → 2 ≤ (workingProxies st.proxies st.info).length →
          (getNextProxy st env).1
            = some (((workingProxies st.proxies st.info).getD 1 dummyPoolProxy).url)) := by
  intro st env hne hwp
  have hsel := poolSelect_advances_cursor st.proxies st.info env.infoAfterRevalidate
    st.currentIndex hne hwp
  have hgnp : getNextProxy st env
      = poolSelect st.proxies st.info env.infoAfterRevalidate st.currentIndex := by
    unfold getNextProxy
    simp [hne]
  constructor
  · rw [hgnp]
    exact hsel
  · intro h0 h2
    rw [hgnp, hsel.2, h0]
    have hmod : (0 + 1) % (workingProxies st.proxies st.info).length = 1 :=
      Nat.mod_eq_of_lt (by omega)
    rw [hmod]

/-- Witness for C10 at the sample pool: the first call after a fresh
validation returns the second valid candidate. -/
theorem c10_cursor_advances_before_select_witness :
    (getNextProxy samplePoolState sampleNextEnv).1
        = some (((workingProxies samplePoolState.proxies samplePoolState.info).getD 1
            dummyPoolProxy).url)
    ∧ (getNextProxy samplePoolState sampleNextEnv).1 = some "http://10.0.0.2:8080" :=
  ⟨(c10_cursor_advances_before_select samplePoolState sampleNextEnv (by decide)
      (by decide)).2 rfl (by decide),
   by decide⟩

/-! ## Claim C8 — the proxy-list line grammar

Supporting lemmas: the greedy-run matchers of the embedded regexes are
characterised against the declarative line shapes. -/

/-- Evaluation of `spanP` on a run of `q`-characters followed by input whose head fails
`q` splits exactly there. -/
theorem spanP_append (q : Char → Bool) :
    ∀ (xs rest : List Char), xs.all q = true →
      (∀ y, rest.head? = some y → q y = false) →
      spanP q (xs ++ rest) = (xs, rest) := by
  intro xs
  induction xs with
  | nil =>
    intro rest _ hrest
    cases rest with
    | nil => rfl
    | cons y ys =>
      have hy : q y = false := hrest y rfl
      simp [spanP, hy]
  | cons x xs ih =>
    intro rest hall hrest
    rw [List.all_cons, Bool.and_eq_true] at hall
    simp [spanP, hall.1, ih rest hall.2 hrest]

/-- The two components of `spanP` rebuild the input. -/
theorem spanP_decomp (q : Char → Bool) :
    ∀ l : List Char, (spanP q l).1 ++ (spanP q l).2 = l := by
  intro l
  induction l with
  | nil => rfl
  | cons x xs ih =>
    by_cases hx : q x = true
    · simp [spanP, hx, ih]
    · have hx' : q x = false := by
        cases h : q x
        · rfl
        · exact absurd h hx
      simp [spanP, hx']

/-- Every character of the first `spanP` component satisfies `q`. -/
theorem spanP_all (q : Char → Bool) :
    ∀ l : List Char, ((spanP q l).1).all q = true := by
  intro l
  induction l with
  | nil => rfl
  | cons x xs ih =>
    by_cases hx : q x = true
    · simp [spanP, hx, ih]
    · have hx' : q x = false := by
        cases h : q x
        · rfl
        · exact absurd h hx
      simp [spanP, hx']

/-- The head of the second `spanP` component fails `q`. -/
theorem spanP_head (q : Char → Bool) :
    ∀ (l : List Char) (y : Char), ((spanP q l).2).head? = some y → q y = false := by
  intro l
  induction l with
  | nil => intro y h; simp [spanP] at h
  | cons x xs ih =>
    intro y h
    by_cases hx : q x = true
    · simp [spanP, hx] at h
      exact ih y h
    · have hx' : q x = false := by
        cases hq : q x
        · rfl
        · exact absurd hq hx
      simp [spanP, hx'] at h
      exact h ▸ hx'

/-- Unfolding of `expectChar` on a cons cell. -/
theorem expectChar_cons (c x : Char) (xs : List Char) :
    expectChar c (x :: xs) = if x = c then some xs else none := rfl

/-- The matcher `expectChar` succeeds exactly on inputs starting with the expected
character. -/
theorem expectChar_eq_some (c : Char) (l rest : List Char) :
    expectChar c l = some rest ↔ l = c :: rest := by
  cases l with
  | nil => simp [expectChar]
  | cons x xs =>
    rw [expectChar_cons]
    by_cases hx : x = c
    · subst hx
      simp
    · simp [hx]

/-- A digit is not a dot, colon or slash. -/
theorem isDigitChar_ne (c : Char) (h : isDigitChar c = true) :
    c ≠ '.' ∧ c ≠ ':' ∧ c ≠ '/' := by
  refine ⟨?_, ?_, ?_⟩ <;> rintro rfl <;> exact absurd h (by decide)

/-- A digit is a word character. -/
theorem isWordChar_of_isDigitChar (c : Char) (h : isDigitChar c = true) :
    isWordChar c = true := by
  unfold isDigitChar at h
  unfold isWordChar
  rw [h]
  simp

/-- A word character is not a colon, slash or dot. -/
theorem isWordChar_ne (c : Char) (h : isWordChar c = true) :
    c ≠ ':' ∧ c ≠ '/' ∧ c ≠ '.' := by
  refine ⟨?_, ?_, ?_⟩ <;> rintro rfl <;> exact absurd h (by decide)

/-- The function `splitOn` always returns at least one piece. -/
theorem splitOn_ne_nil (c : Char) : ∀ l : List Char, splitOn c l ≠ [] := by
  intro l
  induction l with
  | nil => simp [splitOn]
  | cons x xs ih =>
    by_cases hx : x = c
    · simp [splitOn, hx]
    · simp only [splitOn, hx, if_false]
      cases h : splitOn c xs with
      | nil => exact absurd h ih
      | cons hd tl => simp

/-- The function `joinSep` is a left inverse of `splitOn`. -/
theorem joinSep_splitOn (c : Char) : ∀ l : List Char, joinSep c (splitOn c l) = l := by
  intro l
  induction l with
  | nil => rfl
  | cons x xs ih =>
    by_cases hx : x = c
    · subst hx
      rcases hS : splitOn x xs with _ | ⟨hd, tl⟩
      · exact absurd hS (splitOn_ne_nil x xs)
      · rw [hS] at ih
        simp only [splitOn, if_pos rfl]
        rw [hS]
        show ([] : List Char) ++ x :: joinSep x (hd :: tl) = x :: xs
        rw [List.nil_append, ih]
    · rcases hS : splitOn c xs with _ | ⟨hd, tl⟩
      · exact absurd hS (splitOn_ne_nil c xs)
      · rw [hS] at ih
        simp only [splitOn, hx, if_false]
        rw [hS]
        cases tl with
        | nil =>
          show x :: hd = x :: xs
          rw [show joinSep c [hd] = hd from rfl] at ih
          rw [ih]
        | cons t2 ts =>
          show (x :: hd) ++ c :: joinSep c (t2 :: ts) = x :: xs
          rw [show joinSep c (hd :: t2 :: ts) = hd ++ c :: joinSep c (t2 :: ts) from rfl] at ih
          rw [List.cons_append, ih]

/-- Every piece produced by `splitOn` is free of the separator. -/
theorem splitOn_pieces (c : Char) :
    ∀ (l : List Char) (piece : List Char), piece ∈ splitOn c l →
      piece.all (fun a => a != c) = true := by
  intro l
  induction l with
  | nil =>
    intro piece h
    simp [splitOn] at h
    simp [h]
  | cons x xs ih =>
    intro piece h
    by_cases hx : x = c
    · simp only [splitOn, hx, if_pos rfl] at h
      rcases List.mem_cons.mp h with h1 | h2
      · simp [h1]
      · exact ih piece h2
    · simp only [splitOn, hx, if_false] at h
      rcases hS : splitOn c xs with _ | ⟨hd, tl⟩
      · exact absurd hS (splitOn_ne_nil c xs)
      · rw [hS] at h
        rcases List.mem_cons.mp h with h1 | h2
        · subst h1
          have hhd : hd.all (fun a => a != c) = true := by
            apply ih
            rw [hS]
            exact List.mem_cons_self hd tl
          rw [List.all_cons, Bool.and_eq_true]
          exact ⟨by simpa using hx, hhd⟩
        · exact ih piece (by rw [hS]; exact List.mem_cons_of_mem hd h2)

/-- The function `splitOn` splits off a separator-free prefix at the first separator. -/
theorem splitOn_append_piece (c : Char) :
    ∀ (xs rest : List Char), xs.all (fun a => a != c) = true →
      splitOn c (xs ++ c :: rest) = xs :: splitOn c rest := by
  intro xs
  induction xs with
  | nil =>
    intro rest _
    simp [splitOn]
  | cons x xs ih =>
    intro rest hall
    simp only [List.all_cons, Bool.and_eq_true] at hall
    have hx : x ≠ c := by simpa using hall.1
    simp only [List.cons_append, splitOn, hx, if_false]
    rw [show xs.append (c :: rest) = xs ++ c :: rest from rfl]
    rw [ih rest hall.2]

/-- The function `splitOn` maps a separator-free list to that single piece. -/
theorem splitOn_no_sep (c : Char) :
    ∀ xs : List Char, xs.all (fun a => a != c) = true → splitOn c xs = [xs] := by
  intro xs
  induction xs with
  | nil => intro _; rfl
  | cons x xs ih =>
    intro hall
    simp only [List.all_cons, Bool.and_eq_true] at hall
    have hx : x ≠ c := by
      intro hc
      rw [hc] at hall
      simp [bne] at hall
    simp only [splitOn, hx, if_false]
    rw [ih hall.2]

/-- Unfolding of `octetChars` into propositional components. -/
theorem octetChars_iff (l : List Char) :
    octetChars l = true ↔ l ≠ [] ∧ l.length ≤ 3 ∧ l.all isDigitChar = true := by
  cases l with
  | nil => simp [octetChars]
  | cons x xs => simp [octetChars]

/-- Unfolding of `portChars` into propositional components. -/
theorem portChars_iff (l : List Char) :
    portChars l = true ↔ l ≠ [] ∧ l.length ≤ 5 ∧ l.all isDigitChar = true := by
  cases l with
  | nil => simp [portChars]
  | cons x xs => simp [portChars]

/-- Unfolding of `schemeChars` into propositional components. -/
theorem schemeChars_iff (l : List Char) :
    schemeChars l = true ↔ l ≠ [] ∧ l.all isWordChar = true := by
  cases l with
  | nil => simp [schemeChars]
  | cons x xs => simp [schemeChars]

/-- A run of digits is free of dots. -/
theorem all_digit_no_dot (l : List Char) (h : l.all isDigitChar = true) :
    l.all (fun a => a != '.') = true := by
  rw [List.all_eq_true] at h ⊢
  intro x hx
  have hne := (isDigitChar_ne x (h x hx)).1
  simpa using hne

/-- A run of digits is a run of word characters. -/
theorem all_digit_all_word (l : List Char) (h : l.all isDigitChar = true) :
    l.all isWordChar = true := by
  rw [List.all_eq_true] at h ⊢
  intro x hx
  exact isWordChar_of_isDigitChar x (h x hx)

/-- The matcher `matchOctet` accepts a valid octet followed by a non-digit delimiter. -/
theorem matchOctet_construct (ds rest : List Char)
    (hds : octetChars ds = true)
    (hrest : ∀ y, rest.head? = some y → isDigitChar y = false) :
    matchOctet (ds ++ rest) = some (ds, rest) := by
  obtain ⟨hne, hlen, hall⟩ := (octetChars_iff ds).mp hds
  have h1 : 1 ≤ ds.length := by
    cases ds with
    | nil => exact absurd rfl hne
    | cons a as => simp
  unfold matchOctet
  rw [spanP_append isDigitChar ds rest hall hrest]
  simp [h1, hlen]

/-- What a successful `matchOctet` tells about its input. -/
theorem matchOctet_inv (l ds rest : List Char) (h : matchOctet l = some (ds, rest)) :
    l = ds ++ rest ∧ octetChars ds = true
      ∧ (∀ y, rest.head? = some y → isDigitChar y = false) := by
  unfold matchOctet at h
  by_cases hc : 1 ≤ (spanP isDigitChar l).1.length ∧ (spanP isDigitChar l).1.length ≤ 3
  · rw [if_pos hc] at h
    have hpair := Option.some.inj h
    have hds : (spanP isDigitChar l).1 = ds := congrArg Prod.fst hpair
    have hrest : (spanP isDigitChar l).2 = rest := congrArg Prod.snd hpair
    refine ⟨?_, ?_, ?_⟩
    · rw [← hds, ← hrest]
      exact (spanP_decomp isDigitChar l).symm
    · rw [octetChars_iff]
      refine ⟨?_, ?_, ?_⟩
      · rw [← hds]
        intro hnil
        rw [hnil] at hc
        simp at hc
      · rw [← hds]
        exact hc.2
      · rw [← hds]
        exact spanP_all isDigitChar l
    · intro y hy
      apply spanP_head isDigitChar l
      rw [hrest]
      exact hy
  · rw [if_neg hc] at h
    exact absurd h (by simp)

/-- The matcher `matchPortEnd` accepts a valid port run. -/
theorem matchPortEnd_construct (l : List Char) (h : portChars l = true) :
    matchPortEnd l = some l := by
  obtain ⟨hne, hlen, hall⟩ := (portChars_iff l).mp h
  unfold matchPortEnd
  rw [if_pos ⟨hne, hlen, hall⟩]

/-- What a successful `matchPortEnd` tells about its input. -/
theorem matchPortEnd_inv (l p : List Char) (h : matchPortEnd l = some p) :
    p = l ∧ portChars l = true := by
  unfold matchPortEnd at h
  by_cases hc : l ≠ [] ∧ l.length ≤ 5 ∧ l.all isDigitChar = true
  · rw [if_pos hc] at h
    exact ⟨(Option.some.inj h).symm, (portChars_iff l).mpr hc⟩
  · rw [if_neg hc] at h
    exact absurd h (by simp)

/-- A true `ipv4Chars` decomposes the input into four valid octets. -/
theorem ipv4Chars_decomp (l : List Char) (h : ipv4Chars l = true) :
    ∃ a b c d : List Char,
      l = a ++ '.' :: b ++ '.' :: c ++ '.' :: d
      ∧ octetChars a = true ∧ octetChars b = true
      ∧ octetChars c = true ∧ octetChars d = true := by
  unfold ipv4Chars at h
  rcases hS : splitOn '.' l with _ | ⟨a, _ | ⟨b, _ | ⟨c, _ | ⟨d, _ | ⟨e, tl⟩⟩⟩⟩⟩ <;>
    rw [hS] at h <;> simp at h
  obtain ⟨⟨⟨ha, hb⟩, hc⟩, hd⟩ :
      ((octetChars a = true ∧ octetChars b = true) ∧ octetChars c = true)
        ∧ octetChars d = true := by
    simpa [Bool.and_eq_true, and_assoc] using h
  have hl := joinSep_splitOn '.' l
  rw [hS] at hl
  refine ⟨a, b, c, d, ?_, ha, hb, hc, hd⟩
  rw [← hl]
  simp [joinSep, List.append_assoc]

/-- Four valid octets joined with dots satisfy `ipv4Chars`. -/
theorem ipv4Chars_construct (a b c d : List Char)
    (ha : octetChars a = true) (hb : octetChars b = true)
    (hc : octetChars c = true) (hd : octetChars d = true) :
    ipv4Chars (a ++ '.' :: b ++ '.' :: c ++ '.' :: d) = true := by
  have hda := all_digit_no_dot a ((octetChars_iff a).mp ha).2.2
  have hdb := all_digit_no_dot b ((octetChars_iff b).mp hb).2.2
  have hdc := all_digit_no_dot c ((octetChars_iff c).mp hc).2.2
  have hdd := all_digit_no_dot d ((octetChars_iff d).mp hd).2.2
  unfold ipv4Chars
  simp only [List.append_assoc, List.cons_append]
  rw [splitOn_append_piece '.' a (b ++ ('.' :: (c ++ ('.' :: d)))) hda,
    splitOn_append_piece '.' b (c ++ ('.' :: d)) hdb,
    splitOn_append_piece '.' c d hdc, splitOn_no_sep '.' d hdd]
  simp [ha, hb, hc, hd]

/-- The matcher `expectChar` succeeds on its own character. -/
theorem expectChar_self (c : Char) (xs : List Char) :
    expectChar c (c :: xs) = some xs := by
  rw [expectChar_cons, if_pos rfl]

/-- The head of a cons list with a non-digit head is not a digit. -/
theorem head_cons_not_digit (c : Char) (hc : isDigitChar c = false) (X : List Char) :
    ∀ y, ((c :: X).head? = some y) → isDigitChar y = false := by
  intro y hy
  simp at hy
  exact hy ▸ hc

/-- The matcher `matchIPv4` accepts four valid dotted octets followed by a non-digit
delimiter. -/
theorem matchIPv4_construct (a b c d rest : List Char)
    (ha : octetChars a = true) (hb : octetChars b = true)
    (hc : octetChars c = true) (hd : octetChars d = true)
    (hrest : ∀ y, rest.head? = some y → isDigitChar y = false) :
    matchIPv4 ((a ++ '.' :: b ++ '.' :: c ++ '.' :: d) ++ rest)
      = some (a ++ '.' :: b ++ '.' :: c ++ '.' :: d, rest) := by
  have hdot : isDigitChar '.' = false := by decide
  have h1 := matchOctet_construct a ('.' :: (b ++ ('.' :: (c ++ ('.' :: (d ++ rest)))))) ha
    (head_cons_not_digit '.' hdot _)
  have h2 := matchOctet_construct b ('.' :: (c ++ ('.' :: (d ++ rest)))) hb
    (head_cons_not_digit '.' hdot _)
  have h3 := matchOctet_construct c ('.' :: (d ++ rest)) hc
    (head_cons_not_digit '.' hdot _)
  have h4 := matchOctet_construct d rest hd hrest
  have harg : (a ++ '.' :: b ++ '.' :: c ++ '.' :: d) ++ rest
      = a ++ ('.' :: (b ++ ('.' :: (c ++ ('.' :: (d ++ rest)))))) := by
    simp [List.append_assoc]
  rw [harg]
  simp only [matchIPv4, h1, h2, h3, h4, expectChar_self]

/-- What a successful `matchIPv4` tells about its input. -/
theorem matchIPv4_inv (l ip rest : List Char) (h : matchIPv4 l = some (ip, rest)) :
    l = ip ++ rest ∧ ipv4Chars ip = true
      ∧ (∀ y, rest.head? = some y → isDigitChar y = false) := by
  unfold matchIPv4 at h
  split at h
  · simp at h
  · rename_i a r1 h1
    split at h
    · simp at h
    · rename_i r1d h2
      split at h
      · simp at h
      · rename_i b r2 h3
        split at h
        · simp at h
        · rename_i r2d h4
          split at h
          · simp at h
          · rename_i c0 r3 h5
            split at h
            · simp at h
            · rename_i r3d h6
              split at h
              · simp at h
              · rename_i d0 r4 h7
                have hpair := Option.some.inj h
                have hip : a ++ '.' :: b ++ '.' :: c0 ++ '.' :: d0 = ip :=
                  congrArg Prod.fst hpair
                have hr : r4 = rest := congrArg Prod.snd hpair
                obtain ⟨hl1, hoa, _⟩ := matchOctet_inv l a r1 h1
                have hr1 : r1 = '.' :: r1d := (expectChar_eq_some '.' r1 r1d).mp h2
                obtain ⟨hl2, hob, _⟩ := matchOctet_inv r1d b r2 h3
                have hr2 : r2 = '.' :: r2d := (expectChar_eq_some '.' r2 r2d).mp h4
                obtain ⟨hl3, hoc, _⟩ := matchOctet_inv r2d c0 r3 h5
                have hr3 : r3 = '.' :: r3d := (expectChar_eq_some '.' r3 r3d).mp h6
                obtain ⟨hl4, hod, hhead⟩ := matchOctet_inv r3d d0 r4 h7
                refine ⟨?_, ?_, ?_⟩
                · rw [← hip, ← hr]
                  rw [hl1, hr1, hl2, hr2, hl3, hr3, hl4]
                  simp [List.append_assoc]
                · rw [← hip]
                  exact ipv4Chars_construct a b c0 d0 hoa hob hoc hod
                · intro y hy
                  rw [← hr] at hy
                  exact hhead y hy

/-- The matcher `matchHostPort` accepts a valid IPv4 host, a colon, and a valid
port run. -/
theorem matchHostPort_construct (hst prt : List Char)
    (hh : ipv4Chars hst = true) (hp : portChars prt = true) :
    matchHostPort (hst ++ ':' :: prt) = some (hst, prt) := by
  obtain ⟨a, b, c, d, hdec, ha, hb, hc, hd⟩ := ipv4Chars_decomp hst hh
  subst hdec
  have hcolon : isDigitChar ':' = false := by decide
  have hi := matchIPv4_construct a b c d (':' :: prt) ha hb hc hd
    (head_cons_not_digit ':' hcolon prt)
  simp only [matchHostPort, hi, expectChar_self, matchPortEnd_construct prt hp]

/-- What a successful `matchHostPort` tells about its input. -/
theorem matchHostPort_inv (l hst prt : List Char)
    (h : matchHostPort l = some (hst, prt)) :
    l = hst ++ ':' :: prt ∧ ipv4Chars hst = true ∧ portChars prt = true := by
  unfold matchHostPort at h
  split at h
  · simp at h
  · rename_i ip r h1
    split at h
    · simp at h
    · rename_i r1 h2
      split at h
      · simp at h
      · rename_i port h3
        have hpair := Option.some.inj h
        have hip : ip = hst := congrArg Prod.fst hpair
        have hport : port = prt := congrArg Prod.snd hpair
        subst hip
        subst hport
        obtain ⟨hl, hipv4, _⟩ := matchIPv4_inv l ip r h1
        have hr : r = ':' :: r1 := (expectChar_eq_some ':' r r1).mp h2
        obtain ⟨hpr, hportc⟩ := matchPortEnd_inv r1 port h3
        refine ⟨?_, hipv4, ?_⟩
        · rw [hl, hr, ← hpr]
        · rw [hpr]
          exact hportc

/-- The matcher `matchSchemeForm` accepts `scheme://ipv4:port`. -/
theorem matchSchemeForm_construct (sch hst prt : List Char)
    (hs : schemeChars sch = true) (hh : ipv4Chars hst = true)
    (hp : portChars prt = true) :
    matchSchemeForm (sch ++ ':' :: '/' :: '/' :: (hst ++ ':' :: prt))
      = some (sch, hst, prt) := by
  obtain ⟨hne, hall⟩ := (schemeChars_iff sch).mp hs
  have hw : isWordChar ':' = false := by decide
  have hspan := spanP_append isWordChar sch (':' :: '/' :: '/' :: (hst ++ ':' :: prt)) hall
    (fun y hy => by simp at hy; exact hy ▸ hw)
  have hhp := matchHostPort_construct hst prt hh hp
  unfold matchSchemeForm
  rw [hspan]
  simp [hne, expectChar_self, hhp]

/-- What a successful `matchSchemeForm` tells about its input. -/
theorem matchSchemeForm_inv (l sch hst prt : List Char)
    (h : matchSchemeForm l = some (sch, hst, prt)) :
    l = sch ++ ':' :: '/' :: '/' :: (hst ++ ':' :: prt)
    ∧ schemeChars sch = true ∧ ipv4Chars hst = true ∧ portChars prt = true := by
  unfold matchSchemeForm at h
  by_cases hne : (spanP isWordChar l).1 = []
  · rw [if_pos hne] at h
    simp at h
  · rw [if_neg hne] at h
    split at h
    · simp at h
    · rename_i r1 h1
      split at h
      · simp at h
      · rename_i r2 h2
        split at h
        · simp at h
        · rename_i rest2 h3
          rcases hmp : matchHostPort rest2 with _ | ⟨ip, port⟩
          · rw [hmp] at h
            simp at h
          · rw [hmp] at h
            obtain ⟨h4, h5, h6⟩ :
                (spanP isWordChar l).1 = sch ∧ ip = hst ∧ port = prt := by
              simpa using h
            obtain ⟨hl2, hipv4, hportc⟩ := matchHostPort_inv rest2 ip port hmp
            have hd0 := spanP_decomp isWordChar l
            have hc1 := (expectChar_eq_some ':' _ r1).mp h1
            have hc2 := (expectChar_eq_some '/' _ r2).mp h2
            have hc3 := (expectChar_eq_some '/' _ rest2).mp h3
            refine ⟨?_, ?_, ?_, ?_⟩
            · rw [← hd0, h4, hc1, hc2, hc3, hl2, h5, h6]
            · rw [← h4]
              exact (schemeChars_iff _).mpr ⟨hne, spanP_all isWordChar l⟩
            · rw [← h5]
              exact hipv4
            · rw [← h6]
              exact hportc

/-- On a bare `ipv4:port` line the scheme-form regex fails: the leading
digit run is terminated by the first dot, which cannot start `://`. -/
theorem matchSchemeForm_bare (hst prt : List Char) (hh : ipv4Chars hst = true) :
    matchSchemeForm (hst ++ ':' :: prt) = none := by
  obtain ⟨a, b, c, d, hdec, ha, _, _, _⟩ := ipv4Chars_decomp hst hh
  subst hdec
  obtain ⟨hane, _, haall⟩ := (octetChars_iff a).mp ha
  have haw := all_digit_all_word a haall
  have hdot : isWordChar '.' = false := by decide
  have harg : ((a ++ '.' :: b ++ '.' :: c ++ '.' :: d) ++ ':' :: prt)
      = a ++ ('.' :: (b ++ ('.' :: (c ++ ('.' :: (d ++ ':' :: prt)))))) := by
    simp [List.append_assoc]
  have hspan := spanP_append isWordChar a
    ('.' :: (b ++ ('.' :: (c ++ ('.' :: (d ++ ':' :: prt)))))) haw
    (fun y hy => by simp at hy; exact hy ▸ hdot)
  have hcc : ('.' : Char) ≠ ':' := by decide
  rw [harg]
  unfold matchSchemeForm
  rw [hspan]
  simp [hane, expectChar_cons, hcc]

/-- Character data of the `://` literal. -/
theorem data_scheme_sep : ("://" : String).data = [':', '/', '/'] := rfl

/-- Character data of the `:` literal. -/
theorem data_colon : (":" : String).data = [':'] := rfl

/-- Character data of a packed character list. -/
theorem data_mk (l : List Char) : (String.mk l).data = l := rfl

/-- The per-line parser accepts exactly the lines of `AmendedLineForm`:
`scheme://ipv4:port` or bare `ipv4:port`. -/
theorem parseTrimmedLine_isSome_iff (src t : String) :
    (parseTrimmedLine src t).isSome = true ↔ AmendedLineForm t := by
  constructor
  · intro h
    unfold parseTrimmedLine at h
    split at h
    · rename_i sch ip port heq
      left
      obtain ⟨hl, hs, hh, hp⟩ := matchSchemeForm_inv t.data sch ip port heq
      refine ⟨⟨sch⟩, ⟨ip⟩, ⟨port⟩, ?_, hs, hh, hp⟩
      apply String.ext
      rw [hl]
      simp [String.data_append, data_scheme_sep, data_colon, data_mk, List.append_assoc]
    · rename_i heq1
      split at h
      · rename_i ip port heq2
        right
        obtain ⟨hl, hh, hp⟩ := matchHostPort_inv t.data ip port heq2
        refine ⟨⟨ip⟩, ⟨port⟩, ?_, hh, hp⟩
        apply String.ext
        rw [hl]
        simp [String.data_append, data_colon, data_mk, List.append_assoc]
      · simp at h
  · intro hA
    rcases hA with ⟨sch, hst, prt, heq, hs, hh, hp⟩ | ⟨hst, prt, heq, hh, hp⟩
    · subst heq
      unfold parseTrimmedLine
      have hd : ((sch ++ "://" ++ hst ++ ":" ++ prt) : String).data
          = sch.data ++ ':' :: '/' :: '/' :: (hst.data ++ ':' :: prt.data) := by
        simp [String.data_append, data_scheme_sep, data_colon, List.append_assoc]
      rw [hd, matchSchemeForm_construct sch.data hst.data prt.data hs hh hp]
      simp
    · subst heq
      unfold parseTrimmedLine
      have hd : ((hst ++ ":" ++ prt) : String).data = hst.data ++ ':' :: prt.data := by
        simp [String.data_append, data_colon, List.append_assoc]
      rw [hd, matchSchemeForm_bare hst.data prt.data hh,
        matchHostPort_construct hst.data prt.data hh hp]
      simp

/-- On a bare `ipv4:port` line the parser defaults the scheme: `socks5`
when the source URL contains `socks` case-insensitively, `http`
otherwise. -/
theorem parseTrimmedLine_bare (src hst prt : String)
    (hh : ipv4Chars hst.data = true) (hp : portChars prt.data = true) :
    parseTrimmedLine src (hst ++ ":" ++ prt)
      = some { host := hst, port := digitsToNat prt.data
               type := if jsIncludes (jsToLower src) "socks" then "socks5" else "http"
               url := (if jsIncludes (jsToLower src) "socks" then "socks5" else "http")
                 ++ "://" ++ hst ++ ":" ++ toString (digitsToNat prt.data)
               sourceUrl := src } := by
  unfold parseTrimmedLine
  have hd : ((hst ++ ":" ++ prt) : String).data = hst.data ++ ':' :: prt.data := by
    simp [String.data_append, data_colon, List.append_assoc]
  rw [hd, matchSchemeForm_bare hst.data prt.data hh,
    matchHostPort_construct hst.data prt.data hh hp]

/-- The line loop of `parseProxyList` is the `filterMap` of the one-line
parser. -/
theorem parseProxyListLines_eq_filterMap (src : String) :
    ∀ lines : List String,
      parseProxyListLines src lines = lines.filterMap (parseLine src) := by
  intro lines
  induction lines with
  | nil => rfl
  | cons line rest ih =>
    by_cases hskip : jsTrim line = "" ∨ strStartsWith "#" (jsTrim line)
        ∨ strStartsWith "//" (jsTrim line)
    · simp [parseProxyListLines, parseLine, hskip, List.filterMap_cons, ih]
    · cases hp : parseTrimmedLine src (jsTrim line) <;>
        simp [parseProxyListLines, parseLine, hskip, hp, List.filterMap_cons, ih]

/-- C8 (counterexample): the line `http://example.com:8080` is of the form
`scheme://host:port` asserted by the claim, yet the parser silently skips
it — the embedded regexes only accept IPv4-literal hosts. -/
theorem c8_wellformed_host_line_skipped :
    ClaimLineForm "http://example.com:8080"
    ∧ parseProxyList "http://example.com:8080" "https://proxy-source.example/list.txt"
        = [] := by
  constructor
  · exact Or.inl ⟨"http", "example.com", "8080", by decide, by decide, by decide, by decide⟩
  · rfl

/-- C8 (amended): for every input text, `parseProxyList` walks the lines
(split at `\r?\n`), silently skipping blank lines, `#`/`//` comment lines
and every line whose trimmed text is not of the accepted shape, and
returns one candidate per accepted line; the accepted shapes are exactly
`scheme://ipv4:port` and bare `ipv4:port` (scheme a nonempty word run,
host an IPv4 dotted quad of 1-to-3-digit octets, port 1 to 5 digits); a
bare line defaults its scheme to `http`, or to `socks5` when the source
URL contains a SOCKS hint. -/
theorem c8_line_grammar :
    ∀ src text : String,
      parseProxyList text src = (splitLines text).filterMap (parseLine src)
      ∧ (∀ t : String, (parseTrimmedLine src t).isSome = true ↔ AmendedLineForm t)
      ∧ (∀ hst prt : String,
          ipv4Chars hst.data = true → portChars prt.data = true →
          parseTrimmedLine src (hst ++ ":" ++ prt)
            = some { host := hst, port := digitsToNat prt.data
                     type := if jsIncludes (jsToLower src) "socks" then "socks5" else "http"
                     url := (if jsIncludes (jsToLower src) "socks" then "socks5" else "http")
                       ++ "://" ++ hst ++ ":" ++ toString (digitsToNat prt.data)
                     sourceUrl := src }) := by
  intro src text
  exact ⟨parseProxyListLines_eq_filterMap src (splitLines text),
    fun t => parseTrimmedLine_isSome_iff src t,
    fun hst prt hh hp => parseTrimmedLine_bare src hst prt hh hp⟩

/-- Witness for C8 at concrete lines. -/
theorem c8_line_grammar_witness :
    (parseProxyList "1.2.3.4:8080" "https://src.example"
        = (splitLines "1.2.3.4:8080").filterMap (parseLine "https://src.example"))
    ∧ (parseTrimmedLine "https://src.example" "5.6.7.8:80").isSome = true := by
  have h := c8_line_grammar "https://src.example" "1.2.3.4:8080"
  exact ⟨h.1,
    (h.2.1 "5.6.7.8:80").mpr (Or.inr ⟨"5.6.7.8", "80", by decide, by decide, by decide⟩)⟩

end InfiniteYtViews
